import Mathlib

/-!
# Verification of the portfolio-manager evaluation harness

A shallow embedding of the scenario dataset model and response-collection
pipeline of `evaluation/portfolio_evaluator.py`:

* `JValue` / `Dict` model the JSON values and insertion-ordered Python
  dictionaries the scripts manipulate;
* `PyExc` models the Python exceptions that can cross the relevant
  `try`/`except` boundaries, together with a minimal class hierarchy
  (`ExcClass`, `subclassOf`) sufficient to reason about `except` clauses;
* `Network` abstracts the HTTP layer (aiohttp): it assigns to each GET and
  POST request an `HttpOutcome` (a status/body response, or a
  transport-level failure);
* `send_chat_query`, `health_check` embed `PortfolioManagerApiClient`;
* `tool_definitions`, `test_scenarios`, `create_test_dataset` embed the
  dataset builder `PortfolioManagerEvaluator.create_test_dataset`;
* `enrichScenario`, `processScenario`, `collectLoop`,
  `collect_ai_responses` embed the response collector
  `PortfolioManagerEvaluator.collect_ai_responses` (file I/O, printing
  and the 500 ms courtesy pause are elided; the collector is modelled on
  the in-memory rows it reads and writes, and it additionally exposes the
  trace of query payloads actually POSTed, which the Python loop
  determines but does not record).  One access is semantically relevant
  even though it sits in a print: the progress message reads
  `scenario["scenario_type"]` before the iteration's `try`, so a row
  lacking that key raises an uncaught `KeyError` that aborts the whole
  run; `processScenario` models the full iteration including that guard,
  `enrichScenario` the `try`-guarded body.
-/

namespace PortfolioEval

/-- JSON values, as produced by `response.json()` and written by
`jsonlines`.  Objects are insertion-ordered key/value lists, mirroring
Python dictionaries. -/
inductive JValue where
  | null
  | bool (b : Bool)
  | num (n : Int)
  | str (s : String)
  | arr (elems : List JValue)
  | obj (fields : List (String × JValue))
deriving Repr

/-- A Python dictionary with string keys and JSON-like values, in
insertion order (Python 3.7+ dicts preserve insertion order, and
`jsonlines` serializes them in that order). -/
abbrev Dict := List (String × JValue)

/-- `d[k]` lookup as an `Option`: the value at the (unique) binding of
`k`, if any. -/
def dictGet : Dict → String → Option JValue
  | [], _ => none
  | p :: rest, k => if p.1 == k then some p.2 else dictGet rest k

/-- `k in d` for a Python dictionary. -/
def hasKey : Dict → String → Bool
  | [], _ => false
  | p :: rest, k => p.1 == k || hasKey rest k

/-- `d[k] = v` assignment on a Python dictionary: overwrite the binding in
place when the key exists (keys are unique in a Python dict), append a new
binding at the end otherwise. -/
def dictSet : Dict → String → JValue → Dict
  | [], k, v => [(k, v)]
  | p :: rest, k, v => if p.1 == k then (k, v) :: rest else p :: dictSet rest k v

/-- The Python exception classes that can escape the code under study:
`Exception` itself (raised explicitly with a message), `KeyError` (missing
dictionary key), aiohttp client/transport errors, JSON decoding errors
from `response.json()`, and `AttributeError` (calling `.get` on a non-dict
payload). -/
inductive ExcClass where
  | exceptionCls
  | keyErrorCls
  | clientErrorCls
  | jsonDecodeCls
  | attributeCls
deriving DecidableEq, Repr, Fintype

/-- A raised Python exception: its class together with the data `str(ex)`
renders. -/
inductive PyExc where
  | exception (msg : String)
  | keyError (key : String)
  | clientError (cause : String)
  | jsonDecodeError (msg : String)
  | attributeError (msg : String)
deriving DecidableEq, Repr

/-- The runtime class of an exception. -/
def PyExc.cls : PyExc → ExcClass
  | .exception _ => .exceptionCls
  | .keyError _ => .keyErrorCls
  | .clientError _ => .clientErrorCls
  | .jsonDecodeError _ => .jsonDecodeCls
  | .attributeError _ => .attributeCls

/-- `str(ex)`: `KeyError` renders its key in quotes; the others render
their message. -/
def PyExc.toStr : PyExc → String
  | .exception msg => msg
  | .keyError key => "\x27" ++ key ++ "\x27"
  | .clientError cause => cause
  | .jsonDecodeError msg => msg
  | .attributeError msg => msg

/-- The subclass relation between the modelled exception classes: every
class is a subclass of itself and of the root `Exception`; the specialised
classes are pairwise unrelated. -/
def subclassOf (c parent : ExcClass) : Bool :=
  c == parent || parent == ExcClass.exceptionCls

/-- `except H:` catches `e` exactly when the class of `e` is a subclass of
`H`. -/
def catches (handler : ExcClass) (e : PyExc) : Bool :=
  subclassOf e.cls handler

/-- What one HTTP request yields, as seen by the aiohttp client layer: a
response with a status, a body text (`response.text()`) and a JSON parse
of the body (`response.json()`, which fails on a malformed body), or a
transport-level failure (connection refused, DNS failure, timeout). -/
inductive HttpOutcome where
  | response (status : Nat) (bodyText : String) (bodyJson : Except String JValue)
  | transportFail (cause : String)

/-- The remote world: assigns an outcome to every GET url and to every
POST of a JSON body to a url.  Quantifying theorems over `Network` covers
every pattern of per-request success and failure. -/
structure Network where
  get : String → HttpOutcome
  post : String → JValue → HttpOutcome

/-- `base_url.rstrip(sep)` for the single-character strip set `/`. -/
def rstripSlash (s : String) : String :=
  s.dropRightWhile (· == '/')

/-- The normalised base url stored by `PortfolioManagerApiClient.__init__`. -/
def baseUrlOf (base_url : String) : String := rstripSlash base_url

/-- The JSON body `{"query": ..., "accountId": ..., "threadId": ...}`
POSTed by `send_chat_query`. -/
def queryPayload (query : JValue) (account_id : Int) (thread_id : Option Int) : JValue :=
  .obj [("query", query),
        ("accountId", .num account_id),
        ("threadId", match thread_id with | some t => .num t | none => .null)]

/-- The query endpoint for a base url. -/
def queryUrl (base_url : String) : String :=
  baseUrlOf base_url ++ "/api/ai/chat/query"

/-- The health endpoint for a base url. -/
def healthUrl (base_url : String) : String :=
  baseUrlOf base_url ++ "/api/ai/chat/health"

/-- `PortfolioManagerApiClient.send_chat_query`: POST the payload to the
query endpoint; on a non-200 status raise
`Exception(f"API Error {status}: {text}")`; on a 200 status return the
parsed JSON body verbatim, letting a JSON decoding failure raise; let
transport failures raise as aiohttp client errors.  The surrounding
`try`/`except` prints and re-raises the same exception, so the observable
result is unchanged. -/
def send_chat_query (net : Network) (base_url : String) (query : JValue)
    (account_id : Int) (thread_id : Option Int) : Except PyExc JValue :=
  match net.post (queryUrl base_url) (queryPayload query account_id thread_id) with
  | .transportFail cause => .error (.clientError cause)
  | .response status text bodyJson =>
    if status != 200 then
      .error (.exception ("API Error " ++ toString status ++ ": " ++ text))
    else
      match bodyJson with
      | .ok v => .ok v
      | .error msg => .error (.jsonDecodeError msg)

/-- `PortfolioManagerApiClient.health_check`: GET the health endpoint and
return `status == 200`; the bare `except:` turns any raised failure into
`False`, so the operation is total and never raises. -/
def health_check (net : Network) (base_url : String) : Bool :=
  match net.get (healthUrl base_url) with
  | .response status _ _ => status == 200
  | .transportFail _ => false

/-- The hard-coded tool-definition schemas of `create_test_dataset`. -/
def tool_definitions : List JValue :=
  [ .obj
      [("name", .str "PortfolioAnalysisTool"),
       ("description", .str "Analyzes portfolio holdings for a specific date, calculating total value, asset allocation, and performance metrics"),
       ("parameters", .obj
         [("type", .str "object"),
          ("properties", .obj
            [("valuationDate", .obj
               [("type", .str "string"),
                ("description", .str "Date for analysis (YYYY-MM-DD format or relative terms like \x27today\x27, \x27yesterday\x27)")])]),
          ("required", .arr [.str "valuationDate"])])],
    .obj
      [("name", .str "PortfolioComparisonTool"),
       ("description", .str "Compares portfolio performance between two different dates"),
       ("parameters", .obj
         [("type", .str "object"),
          ("properties", .obj
            [("currentDate", .obj
               [("type", .str "string"),
                ("description", .str "Current date for comparison (YYYY-MM-DD or relative terms)")]),
             ("comparisonDate", .obj
               [("type", .str "string"),
                ("description", .str "Historical date to compare against (YYYY-MM-DD or relative terms)")])]),
          ("required", .arr [.str "currentDate", .str "comparisonDate"])])],
    .obj
      [("name", .str "MarketIntelligenceTool"),
       ("description", .str "Provides market sentiment analysis and intelligence for specific securities"),
       ("parameters", .obj
         [("type", .str "object"),
          ("properties", .obj
            [("symbol", .obj
               [("type", .str "string"),
                ("description", .str "Stock symbol to analyze (e.g., \x27AAPL\x27, \x27MSFT\x27, \x27TSLA.L\x27)")])]),
          ("required", .arr [.str "symbol"])])] ]

/-- The names declared by `tool_definitions` (each definition's `"name"`
entry). -/
def toolDefNames : List String :=
  tool_definitions.filterMap fun td =>
    match td with
    | .obj fields =>
      match dictGet fields "name" with
      | some (.str n) => some n
      | _ => none
    | _ => none

/-- One entry of the hard-coded `test_scenarios` catalog: a query, the
expected tool and parameters, a scenario-type tag, and an optional note. -/
structure Scenario where
  query : String
  expected_tool : String
  expected_params : List (String × JValue)
  scenario_type : String
  note : Option String := none
deriving Repr

/-- The hard-coded `test_scenarios` catalog of `create_test_dataset`, in
source order. -/
def test_scenarios : List Scenario :=
  [ { query := "How is my portfolio performing today?",
      expected_tool := "PortfolioAnalysisTool",
      expected_params := [("valuationDate", .str "today")],
      scenario_type := "portfolio_analysis" },
    { query := "What was my portfolio value yesterday?",
      expected_tool := "PortfolioAnalysisTool",
      expected_params := [("valuationDate", .str "yesterday")],
      scenario_type := "portfolio_analysis" },
    { query := "Can you analyze my portfolio for November 15, 2025?",
      expected_tool := "PortfolioAnalysisTool",
      expected_params := [("valuationDate", .str "2025-11-15")],
      scenario_type := "portfolio_analysis" },
    { query := "How does my portfolio today compare to last week?",
      expected_tool := "PortfolioComparisonTool",
      expected_params := [("currentDate", .str "today"), ("comparisonDate", .str "2025-11-11")],
      scenario_type := "portfolio_comparison" },
    { query := "Compare my current portfolio performance to last month",
      expected_tool := "PortfolioComparisonTool",
      expected_params := [("currentDate", .str "today"), ("comparisonDate", .str "2025-10-18")],
      scenario_type := "portfolio_comparison" },
    { query := "Show me the difference between my portfolio on Nov 10 vs Nov 17, 2025",
      expected_tool := "PortfolioComparisonTool",
      expected_params := [("currentDate", .str "2025-11-17"), ("comparisonDate", .str "2025-11-10")],
      scenario_type := "portfolio_comparison" },
    { query := "What\x27s the market sentiment for Apple stock?",
      expected_tool := "MarketIntelligenceTool",
      expected_params := [("symbol", .str "AAPL")],
      scenario_type := "market_intelligence" },
    { query := "Can you give me intel on Tesla\x27s market situation?",
      expected_tool := "MarketIntelligenceTool",
      expected_params := [("symbol", .str "TSLA")],
      scenario_type := "market_intelligence" },
    { query := "How does the market feel about GEN.L right now?",
      expected_tool := "MarketIntelligenceTool",
      expected_params := [("symbol", .str "GEN.L")],
      scenario_type := "market_intelligence" },
    { query := "What\x27s my total portfolio value and how is MSFT doing in the market?",
      expected_tool := "PortfolioAnalysisTool",
      expected_params := [("valuationDate", .str "today")],
      scenario_type := "multi_intent",
      note := some "Should trigger both PortfolioAnalysisTool and MarketIntelligenceTool" },
    { query := "I want to see how my investments have changed and also check sentiment for Amazon",
      expected_tool := "PortfolioComparisonTool",
      expected_params := [("currentDate", .str "today"), ("comparisonDate", .str "yesterday")],
      scenario_type := "multi_intent",
      note := some "Should trigger PortfolioComparisonTool and MarketIntelligenceTool" } ]

/-- `f"test_{i+1:02d}"`: the number zero-padded to width two. -/
def pad2 (n : Nat) : String :=
  if n < 10 then "0" ++ toString n else toString n

/-- The scenario id written for the row at 0-based index `i`. -/
def scenarioId (i : Nat) : String := "test_" ++ pad2 (i + 1)

/-- The JSONL row `create_test_dataset` writes for the scenario at 0-based
index `i`: the keys in the insertion order of the Python `row` dict, with
the note (when present) stored under the key `"notes"`. -/
def datasetRow (i : Nat) (s : Scenario) : Dict :=
  [("query", .str s.query),
   ("tool_definitions", .arr tool_definitions),
   ("scenario_id", .str (scenarioId i)),
   ("scenario_type", .str s.scenario_type),
   ("expected_tool", .str s.expected_tool),
   ("expected_params", .obj s.expected_params)]
  ++ (match s.note with
      | some n => [("notes", .str n)]
      | none => [])

/-- `PortfolioManagerEvaluator.create_test_dataset`: the sequence of JSONL
rows written, one per scenario, in catalog order. -/
def create_test_dataset : List Dict :=
  test_scenarios.enum.map fun p => datasetRow p.1 p.2

/-- `api_response.get("response", "No response")`: total on JSON objects;
on any other payload shape the attribute access raises. -/
def pyObjGet (v : JValue) (k : String) (default : JValue) : Except PyExc JValue :=
  match v with
  | .obj fields => .ok ((dictGet fields k).getD default)
  | _ => .error (.attributeError "object has no attribute get")

/-- True exactly on JSON objects (the payload shape §6 of the interface
contract promises, on which `.get` is defined). -/
def objPayload : JValue → Bool
  | .obj _ => true
  | _ => false

/-- The success branch of the collection loop: copy the scenario row and
assign `response`, `tool_calls` (always `[]` — the API does not expose
tool-call data), `api_response_full` and `timestamp`, in that order. -/
def mkOkRow (s : Dict) (payload respVal : JValue) (ts : String) : Dict :=
  dictSet (dictSet (dictSet (dictSet s
    "response" respVal)
    "tool_calls" (.arr []))
    "api_response_full" payload)
    "timestamp" (.str ts)

/-- The failure branch of the collection loop: copy the scenario row and
assign `response` (a string embedding the failure description),
`tool_calls`, `error` and `timestamp`, in that order; no
`api_response_full` is assigned. -/
def mkErrRow (s : Dict) (e : PyExc) (ts : String) : Dict :=
  dictSet (dictSet (dictSet (dictSet s
    "response" (.str ("Error: " ++ e.toStr)))
    "tool_calls" (.arr []))
    "error" (.str e.toStr))
    "timestamp" (.str ts)

/-- The `try`-guarded body of one collection-loop iteration for a
scenario row `s`: look up `scenario["query"]` (a missing key raises
inside the `try`, before any request is made), send it, and on success
read the payload's `"response"` field; any exception raised inside the
body is caught by the `except` and turned into the failure row.  Returns
the query payloads actually POSTed during the iteration alongside the
enriched row. -/
def enrichScenario (net : Network) (base_url : String) (account_id : Int)
    (ts : String) (s : Dict) : List JValue × Dict :=
  match dictGet s "query" with
  | none => ([], mkErrRow s (.keyError "query") ts)
  | some qv =>
    match send_chat_query net base_url qv account_id none with
    | .error e => ([qv], mkErrRow s e ts)
    | .ok payload =>
      match pyObjGet payload "response" (.str "No response") with
      | .error e => ([qv], mkErrRow s e ts)
      | .ok respVal => ([qv], mkOkRow s payload respVal ts)

/-- One full iteration of the collection loop: the progress print first
reads `scenario["scenario_type"]` OUTSIDE the `try`, so a row lacking
that key raises an uncaught `KeyError` that aborts the whole run;
otherwise the `try`-guarded body runs and always yields an enriched
row. -/
def processScenario (net : Network) (base_url : String) (account_id : Int)
    (ts : String) (s : Dict) : Except PyExc (List JValue × Dict) :=
  match dictGet s "scenario_type" with
  | none => .error (.keyError "scenario_type")
  | some _ => .ok (enrichScenario net base_url account_id ts s)

/-- The collection loop over the scenario rows, in input order: each
completed iteration appends exactly one enriched row and the `except`
keeps the loop going past any per-scenario failure, but an uncaught
`KeyError` from the pre-`try` progress print aborts the run — later rows
are not attempted and the rows already enriched are discarded (they are
never written).  The first component is the trace of query payloads
POSTed before the run finished or aborted. -/
def collectLoop (net : Network) (base_url : String) (account_id : Int)
    (ts : String) : List Dict → List JValue × Except PyExc (List Dict)
  | [] => ([], .ok [])
  | s :: rest =>
    match processScenario net base_url account_id ts s with
    | .error e => ([], .error e)
    | .ok step =>
      let tail := collectLoop net base_url account_id ts rest
      (step.1 ++ tail.1,
       match tail.2 with
       | .ok rows => .ok (step.2 :: rows)
       | .error e => .error e)

/-- `PortfolioManagerEvaluator.collect_ai_responses` on the in-memory
rows: run the health check first and raise
`Exception(f"... is not healthy ...")` when it fails, before any scenario
is processed; otherwise run the collection loop over every scenario row.
The first component is the trace of query payloads POSTed to the query
endpoint during the run; the second is the run's outcome. -/
def collect_ai_responses (net : Network) (api_base_url : String)
    (account_id : Int) (ts : String) (test_data : List Dict) :
    List JValue × Except PyExc (List Dict) :=
  if health_check net api_base_url then
    collectLoop net api_base_url account_id ts test_data
  else
    ([], .error (.exception ("Portfolio Manager API at " ++ api_base_url ++
      " is not healthy. Please ensure it\x27s running.")))

/-- The scenario ids of the built dataset, in file order. -/
def datasetIds : List String :=
  create_test_dataset.filterMap fun r =>
    match dictGet r "scenario_id" with
    | some (.str s) => some s
    | _ => none

/-! ## Concrete fixtures used to instantiate the theorems -/

/-- A healthy backend that answers every query with
`{"response": "All good"}`. -/
def allGoodNet : Network :=
  { get := fun _ => .response 200 "OK" (.error "health body is not json"),
    post := fun _ _ =>
      .response 200 "raw body" (.ok (.obj [("response", .str "All good")])) }

/-- A healthy backend whose query endpoint always fails at transport
level. -/
def refusingNet : Network :=
  { get := fun _ => .response 200 "OK" (.error "health body is not json"),
    post := fun _ _ => .transportFail "Connection refused" }

/-- A backend whose health endpoint answers 503: the health check fails
before any query is sent. -/
def downNet : Network :=
  { get := fun _ => .response 503 "Service Unavailable" (.error "no json"),
    post := fun _ _ =>
      .response 200 "raw body" (.ok (.obj [("response", .str "All good")])) }

/-- A healthy, fault-injecting backend: the query whose text is `"q2"`
fails at transport level, every other query succeeds with
`{"response": "fine"}`. -/
def faultyOnQ2Net : Network :=
  { get := fun _ => .response 200 "OK" (.error "health body is not json"),
    post := fun _ body =>
      match body with
      | .obj (("query", .str q) :: _) =>
        if q = "q2" then .transportFail "Connection refused"
        else .response 200 "raw body" (.ok (.obj [("response", .str "fine")]))
      | _ => .response 200 "raw body" (.ok (.obj [("response", .str "fine")])) }

/-- A healthy backend that answers 500 with a body text, to exercise the
non-200 branch of `send_chat_query`. -/
def erroringNet : Network :=
  { get := fun _ => .response 200 "OK" (.error "health body is not json"),
    post := fun _ _ => .response 500 "Internal Server Error" (.error "no json") }

/-- Three minimal scenario rows, as read back from a dataset file; each
carries the `scenario_type` key that the loop's progress print reads
outside the `try`. -/
def sRow1 : Dict :=
  [("query", .str "q1"), ("scenario_id", .str "test_01"),
   ("scenario_type", .str "portfolio_analysis")]

/-- Second minimal scenario row. -/
def sRow2 : Dict :=
  [("query", .str "q2"), ("scenario_id", .str "test_02"),
   ("scenario_type", .str "portfolio_comparison")]

/-- Third minimal scenario row. -/
def sRow3 : Dict :=
  [("query", .str "q3"), ("scenario_id", .str "test_03"),
   ("scenario_type", .str "market_intelligence")]

/-! ## Dictionary lemmas -/

/-- Reading back a key just assigned yields the assigned value; any other
key is untouched. -/
theorem dictGet_dictSet (d : Dict) (k k2 : String) (v : JValue) :
    dictGet (dictSet d k v) k2 = if k2 = k then some v else dictGet d k2 := by
  induction d with
  | nil =>
    by_cases h : k2 = k
    · subst h; simp [dictSet, dictGet]
    · simp [dictSet, dictGet, h, Ne.symm h]
  | cons p rest ih =>
    by_cases hpk : p.1 = k
    · by_cases h : k2 = k
      · subst h; simp [dictSet, dictGet, hpk]
      · simp [dictSet, dictGet, hpk, h, Ne.symm h]
    · by_cases h : k2 = k
      · subst h; simp [dictSet, dictGet, hpk, ih]
      · simp [dictSet, dictGet, hpk, h, ih]

/-- Key presence after an assignment. -/
theorem hasKey_dictSet (d : Dict) (k k2 : String) (v : JValue) :
    hasKey (dictSet d k v) k2 = if k2 = k then true else hasKey d k2 := by
  induction d with
  | nil =>
    by_cases h : k2 = k
    · subst h; simp [dictSet, hasKey]
    · simp [dictSet, hasKey, h, Ne.symm h]
  | cons p rest ih =>
    by_cases hpk : p.1 = k
    · by_cases h : k2 = k
      · subst h; simp [dictSet, hasKey, hpk]
      · simp [dictSet, hasKey, hpk, h, Ne.symm h]
    · by_cases h : k2 = k
      · subst h; simp [dictSet, hasKey, hpk, ih]
      · simp [dictSet, hasKey, hpk, h, ih]

/-! ## Row lemmas -/

/-- A success row's `response` value is the extracted payload field. -/
theorem dictGet_mkOkRow_response (s : Dict) (payload rv : JValue) (ts : String) :
    dictGet (mkOkRow s payload rv ts) "response" = some rv := by
  simp [mkOkRow, dictGet_dictSet]

/-- A success row's `tool_calls` value is the empty array. -/
theorem dictGet_mkOkRow_toolCalls (s : Dict) (payload rv : JValue) (ts : String) :
    dictGet (mkOkRow s payload rv ts) "tool_calls" = some (.arr []) := by
  simp [mkOkRow, dictGet_dictSet]

/-- A success row's `api_response_full` value is the full payload. -/
theorem dictGet_mkOkRow_api (s : Dict) (payload rv : JValue) (ts : String) :
    dictGet (mkOkRow s payload rv ts) "api_response_full" = some payload := by
  simp [mkOkRow, dictGet_dictSet]

/-- A success row's `timestamp` value is the capture instant. -/
theorem dictGet_mkOkRow_timestamp (s : Dict) (payload rv : JValue) (ts : String) :
    dictGet (mkOkRow s payload rv ts) "timestamp" = some (.str ts) := by
  simp [mkOkRow, dictGet_dictSet]

/-- A success row carries an `error` key exactly when the input row
already did. -/
theorem hasKey_mkOkRow_error (s : Dict) (payload rv : JValue) (ts : String) :
    hasKey (mkOkRow s payload rv ts) "error" = hasKey s "error" := by
  simp [mkOkRow, hasKey_dictSet]

/-- A success row always carries a `response` key. -/
theorem hasKey_mkOkRow_response (s : Dict) (payload rv : JValue) (ts : String) :
    hasKey (mkOkRow s payload rv ts) "response" = true := by
  simp [mkOkRow, hasKey_dictSet]

/-- A success row always carries an `api_response_full` key. -/
theorem hasKey_mkOkRow_api (s : Dict) (payload rv : JValue) (ts : String) :
    hasKey (mkOkRow s payload rv ts) "api_response_full" = true := by
  simp [mkOkRow, hasKey_dictSet]

/-- A failure row's `response` value embeds the failure description. -/
theorem dictGet_mkErrRow_response (s : Dict) (e : PyExc) (ts : String) :
    dictGet (mkErrRow s e ts) "response" = some (.str ("Error: " ++ e.toStr)) := by
  simp [mkErrRow, dictGet_dictSet]

/-- A failure row's `error` value is the failure description. -/
theorem dictGet_mkErrRow_error (s : Dict) (e : PyExc) (ts : String) :
    dictGet (mkErrRow s e ts) "error" = some (.str e.toStr) := by
  simp [mkErrRow, dictGet_dictSet]

/-- A failure row's `tool_calls` value is the empty array. -/
theorem dictGet_mkErrRow_toolCalls (s : Dict) (e : PyExc) (ts : String) :
    dictGet (mkErrRow s e ts) "tool_calls" = some (.arr []) := by
  simp [mkErrRow, dictGet_dictSet]

/-- A failure row's `timestamp` value is the capture instant. -/
theorem dictGet_mkErrRow_timestamp (s : Dict) (e : PyExc) (ts : String) :
    dictGet (mkErrRow s e ts) "timestamp" = some (.str ts) := by
  simp [mkErrRow, dictGet_dictSet]

/-- A failure row always carries an `error` key. -/
theorem hasKey_mkErrRow_error (s : Dict) (e : PyExc) (ts : String) :
    hasKey (mkErrRow s e ts) "error" = true := by
  simp [mkErrRow, hasKey_dictSet]

/-- A failure row always carries a `response` key. -/
theorem hasKey_mkErrRow_response (s : Dict) (e : PyExc) (ts : String) :
    hasKey (mkErrRow s e ts) "response" = true := by
  simp [mkErrRow, hasKey_dictSet]

/-- A failure row carries an `api_response_full` key exactly when the
input row already did: the failure branch never assigns it. -/
theorem hasKey_mkErrRow_api (s : Dict) (e : PyExc) (ts : String) :
    hasKey (mkErrRow s e ts) "api_response_full" = hasKey s "api_response_full" := by
  simp [mkErrRow, hasKey_dictSet]

/-! ## Loop lemmas -/

/-- Key presence is definedness of the lookup. -/
theorem hasKey_eq_isSome (d : Dict) (k : String) :
    hasKey d k = (dictGet d k).isSome := by
  induction d with
  | nil => rfl
  | cons p rest ih =>
    by_cases h : p.1 = k
    · simp [hasKey, dictGet, h]
    · simp [hasKey, dictGet, h, ih]

/-- A row carrying the `scenario_type` key survives the pre-`try`
progress print: the iteration completes and yields the enriched row. -/
theorem processScenario_of_scenario_type (net : Network) (base_url : String)
    (account_id : Int) (ts : String) (s : Dict)
    (hst : hasKey s "scenario_type" = true) :
    processScenario net base_url account_id ts s =
      .ok (enrichScenario net base_url account_id ts s) := by
  rw [hasKey_eq_isSome] at hst
  cases hv : dictGet s "scenario_type" with
  | none => rw [hv] at hst; simp at hst
  | some tv => simp [processScenario, hv]

/-- When every input row carries the `scenario_type` key, the loop never
aborts: it produces exactly the per-scenario enrichments, in input
order. -/
theorem collectLoop_ok_of_scenario_type (net : Network) (base_url : String)
    (account_id : Int) (ts : String) (ds : List Dict) :
    (∀ s ∈ ds, hasKey s "scenario_type" = true) →
    (collectLoop net base_url account_id ts ds).2 =
      .ok (ds.map (fun s => (enrichScenario net base_url account_id ts s).2)) := by
  induction ds with
  | nil => intro _; rfl
  | cons s rest ih =>
    intro hst
    have hps := processScenario_of_scenario_type net base_url account_id ts s
      (hst s (List.mem_cons_self s rest))
    simp [collectLoop, hps,
      ih (fun s2 hs2 => hst s2 (List.mem_cons_of_mem _ hs2))]

/-- When the query is present and `send_chat_query` fails, the guarded
body produces the failure row after one POST. -/
theorem enrichScenario_of_send_error (net : Network) (base_url : String)
    (account_id : Int) (ts : String) (s : Dict) (qv : JValue) (e : PyExc)
    (hs : dictGet s "query" = some qv)
    (he : send_chat_query net base_url qv account_id none = .error e) :
    enrichScenario net base_url account_id ts s = ([qv], mkErrRow s e ts) := by
  simp [enrichScenario, hs, he]

/-- When the query is present and `send_chat_query` succeeds with an
object payload, the guarded body produces the success row after one POST,
its `response` value the payload's `"response"` field defaulted to
`"No response"`. -/
theorem enrichScenario_of_send_obj (net : Network) (base_url : String)
    (account_id : Int) (ts : String) (s : Dict) (qv : JValue)
    (fields : List (String × JValue))
    (hs : dictGet s "query" = some qv)
    (hok : send_chat_query net base_url qv account_id none = .ok (.obj fields)) :
    enrichScenario net base_url account_id ts s =
      ([qv], mkOkRow s (.obj fields)
        ((dictGet fields "response").getD (.str "No response")) ts) := by
  simp [enrichScenario, hs, hok, pyObjGet]

/-- Every branch of the guarded body — missing query, failed call, or
success — produces a row carrying a `response` key. -/
theorem hasKey_enrichScenario_response (net : Network) (base_url : String)
    (account_id : Int) (ts : String) (s : Dict) :
    hasKey (enrichScenario net base_url account_id ts s).2 "response" = true := by
  unfold enrichScenario
  cases hdq : dictGet s "query" with
  | none => simp [hasKey_mkErrRow_response]
  | some qv =>
    cases hsq : send_chat_query net base_url qv account_id none with
    | error e => simp [hsq, hasKey_mkErrRow_response]
    | ok payload =>
      cases hpg : pyObjGet payload "response" (.str "No response") with
      | error e => simp [hsq, hpg, hasKey_mkErrRow_response]
      | ok rv => simp [hsq, hpg, hasKey_mkOkRow_response]

/-- When the scenario has a query, carries no prior `error` key, and the
backend delivers object payloads on success, the guarded body's row
carries an `error` key exactly when the `send_chat_query` call failed,
and each branch produces exactly the corresponding row. -/
theorem enrichScenario_error_characterization (net : Network) (base_url : String)
    (account_id : Int) (ts : String) (s : Dict) (qv : JValue)
    (hs : dictGet s "query" = some qv)
    (he : hasKey s "error" = false)
    (hob : ∀ p, send_chat_query net base_url qv account_id none = .ok p →
      objPayload p = true) :
    (hasKey (enrichScenario net base_url account_id ts s).2 "error" = true ↔
      ∃ e, send_chat_query net base_url qv account_id none = .error e) ∧
    (∀ e, send_chat_query net base_url qv account_id none = .error e →
      (enrichScenario net base_url account_id ts s).2 = mkErrRow s e ts) ∧
    (∀ fields, send_chat_query net base_url qv account_id none = .ok (.obj fields) →
      (enrichScenario net base_url account_id ts s).2 =
        mkOkRow s (.obj fields)
          ((dictGet fields "response").getD (.str "No response")) ts) := by
  cases hsq : send_chat_query net base_url qv account_id none with
  | error e =>
    rw [enrichScenario_of_send_error net base_url account_id ts s qv e hs hsq]
    refine ⟨⟨fun _ => ⟨e, rfl⟩, fun _ => hasKey_mkErrRow_error s e ts⟩, ?_, ?_⟩
    · intro e2 he2
      cases he2
      rfl
    · intro fields hf
      exact absurd hf (by simp)
  | ok payload =>
    have hobj := hob payload hsq
    cases payload with
    | obj fields =>
      rw [enrichScenario_of_send_obj net base_url account_id ts s qv fields hs hsq]
      refine ⟨?_, ?_, ?_⟩
      · rw [hasKey_mkOkRow_error, he]
        simp
      · intro e2 he2
        exact absurd he2 (by simp)
      · intro fields2 hf
        cases hf
        rfl
    | null => simp [objPayload] at hobj
    | bool b => simp [objPayload] at hobj
    | num n => simp [objPayload] at hobj
    | str s2 => simp [objPayload] at hobj
    | arr elems => simp [objPayload] at hobj

/-! ## Claim theorems -/

/-- C1: for every input sequence of scenario rows (each carrying the
`scenario_type` key that the loop's pre-`try` progress print reads — a
row without it aborts the whole run with an uncaught `KeyError`), when
the health check succeeds, `collect_ai_responses` succeeds and returns
exactly one enriched row per input scenario, in input order — the row at
each position is the enrichment of the scenario at the same position — so
the output length equals the input length regardless of how many
individual `send_chat_query` calls fail (the network `net` is universally
quantified, so every pattern of per-call failure is covered). -/
theorem collect_preserves_length_and_order (net : Network) (api_base_url : String)
    (account_id : Int) (ts : String) (ds : List Dict)
    (h : health_check net api_base_url = true)
    (hst : ∀ s ∈ ds, hasKey s "scenario_type" = true) :
    (collect_ai_responses net api_base_url account_id ts ds).2 =
      .ok (ds.map (fun s => (enrichScenario net api_base_url account_id ts s).2)) ∧
    ∀ rows, (collect_ai_responses net api_base_url account_id ts ds).2 = .ok rows →
      rows.length = ds.length := by
  have h2 : (collect_ai_responses net api_base_url account_id ts ds).2 =
      .ok (ds.map (fun s => (enrichScenario net api_base_url account_id ts s).2)) := by
    simp [collect_ai_responses, h,
      collectLoop_ok_of_scenario_type net api_base_url account_id ts ds hst]
  refine ⟨h2, ?_⟩
  intro rows hrows
  rw [h2, Except.ok.injEq] at hrows
  rw [← hrows]
  simp

/-- Witness for C1: a healthy fault-injecting backend on which the second
of three scenarios fails at transport level still yields exactly three
enriched rows. -/
theorem collect_preserves_length_and_order_witness :
    ((collect_ai_responses faultyOnQ2Net "http://localhost:5000" 1
        "2025-11-18T00:00:00" [sRow1, sRow2, sRow3]).2.map List.length) = .ok 3 := by
  rw [(collect_preserves_length_and_order faultyOnQ2Net "http://localhost:5000" 1
        "2025-11-18T00:00:00" [sRow1, sRow2, sRow3] rfl
        (by intro s hs; fin_cases hs <;> rfl)).1]
  rfl

/-- C2: when the health check fails, `collect_ai_responses` raises the
service-unavailable failure before any scenario is attempted: the POST
trace is empty (the client receives zero `send_chat_query` calls) and no
enriched row is produced. -/
theorem collect_fail_fast (net : Network) (api_base_url : String)
    (account_id : Int) (ts : String) (ds : List Dict)
    (h : health_check net api_base_url = false) :
    collect_ai_responses net api_base_url account_id ts ds =
      ([], .error (.exception ("Portfolio Manager API at " ++ api_base_url ++
        " is not healthy. Please ensure it\x27s running."))) := by
  simp [collect_ai_responses, h]

/-- Witness for C2: against a backend whose health endpoint answers 503,
a two-scenario collection run sends no query and produces no row. -/
theorem collect_fail_fast_witness :
    collect_ai_responses downNet "http://localhost:5000" 1 "2025-11-18T00:00:00"
        [sRow1, sRow2] =
      ([], .error (.exception
        "Portfolio Manager API at http://localhost:5000 is not healthy. Please ensure it\x27s running.")) :=
  collect_fail_fast downNet "http://localhost:5000" 1 "2025-11-18T00:00:00"
    [sRow1, sRow2] rfl

/-- C3: on a healthy run over scenario rows that carry a query and the
`scenario_type` key (whose absence aborts the run at the pre-`try`
progress print), carry no prior `error` key, and against a backend whose
successful payloads are JSON objects (as §6 of the interface contract
promises), every enriched
row carries a `response` key, a row carries an `error` key exactly when
its own `send_chat_query` call failed, a failed call yields exactly the
failure row (whose `response` documents the error), and a successful call
yields exactly the success row derived from that scenario's own payload —
so when only one scenario's call fails, only its record carries an error
and a synthetic response while every other record carries its normal
response unaffected. -/
theorem collect_error_field_iff_call_failed (net : Network) (api_base_url : String)
    (account_id : Int) (ts : String) (ds : List Dict)
    (hh : health_check net api_base_url = true)
    (hob : ∀ qv p, send_chat_query net api_base_url qv account_id none = .ok p →
      objPayload p = true)
    (hst : ∀ s ∈ ds, hasKey s "scenario_type" = true)
    (herr : ∀ s ∈ ds, hasKey s "error" = false) :
    ∀ rows, (collect_ai_responses net api_base_url account_id ts ds).2 = .ok rows →
      List.Forall₂ (fun s r =>
        hasKey r "response" = true ∧
        ∀ qv, dictGet s "query" = some qv →
          ((hasKey r "error" = true ↔
              ∃ e, send_chat_query net api_base_url qv account_id none = .error e) ∧
           (∀ e, send_chat_query net api_base_url qv account_id none = .error e →
              r = mkErrRow s e ts) ∧
           (∀ fields,
              send_chat_query net api_base_url qv account_id none = .ok (.obj fields) →
              r = mkOkRow s (.obj fields)
                ((dictGet fields "response").getD (.str "No response")) ts)))
        ds rows := by
  intro rows hrows
  simp only [collect_ai_responses, hh, if_pos,
    collectLoop_ok_of_scenario_type net api_base_url account_id ts ds hst] at hrows
  rw [Except.ok.injEq] at hrows
  rw [← hrows]
  have main : ∀ l : List Dict, (∀ s ∈ l, hasKey s "error" = false) →
      List.Forall₂ (fun s r =>
        hasKey r "response" = true ∧
        ∀ qv, dictGet s "query" = some qv →
          ((hasKey r "error" = true ↔
              ∃ e, send_chat_query net api_base_url qv account_id none = .error e) ∧
           (∀ e, send_chat_query net api_base_url qv account_id none = .error e →
              r = mkErrRow s e ts) ∧
           (∀ fields,
              send_chat_query net api_base_url qv account_id none = .ok (.obj fields) →
              r = mkOkRow s (.obj fields)
                ((dictGet fields "response").getD (.str "No response")) ts)))
        l (l.map (fun s => (enrichScenario net api_base_url account_id ts s).2)) := by
    intro l
    induction l with
    | nil => intro _; exact List.Forall₂.nil
    | cons s rest ih =>
      intro hl
      rw [List.map_cons]
      refine List.Forall₂.cons ⟨hasKey_enrichScenario_response net api_base_url account_id ts s, ?_⟩
        (ih (fun s2 hs2 => hl s2 (List.mem_cons_of_mem _ hs2)))
      intro qv hs
      exact enrichScenario_error_characterization net api_base_url account_id ts s qv hs
        (hl s (List.mem_cons_self s rest)) (fun p => hob qv p)
  exact main ds herr

/-- Witness for C3: three scenarios against the fault-injecting backend
on which exactly the second query fails. -/
theorem collect_error_field_iff_call_failed_witness :
    List.Forall₂ (fun s r =>
        hasKey r "response" = true ∧
        ∀ qv, dictGet s "query" = some qv →
          ((hasKey r "error" = true ↔
              ∃ e, send_chat_query faultyOnQ2Net "http://localhost:5000" qv 1 none = .error e) ∧
           (∀ e, send_chat_query faultyOnQ2Net "http://localhost:5000" qv 1 none = .error e →
              r = mkErrRow s e "2025-11-18T00:00:00") ∧
           (∀ fields,
              send_chat_query faultyOnQ2Net "http://localhost:5000" qv 1 none = .ok (.obj fields) →
              r = mkOkRow s (.obj fields)
                ((dictGet fields "response").getD (.str "No response")) "2025-11-18T00:00:00")))
      [sRow1, sRow2, sRow3]
      ([sRow1, sRow2, sRow3].map
        (fun s => (enrichScenario faultyOnQ2Net "http://localhost:5000" 1
          "2025-11-18T00:00:00" s).2)) :=
  collect_error_field_iff_call_failed faultyOnQ2Net "http://localhost:5000" 1
    "2025-11-18T00:00:00" [sRow1, sRow2, sRow3] rfl
    (by
      intro qv p h
      cases qv with
      | str q =>
        by_cases hq : q = "q2"
        · subst hq
          simp [send_chat_query, faultyOnQ2Net, queryPayload] at h
        · simp [send_chat_query, faultyOnQ2Net, queryPayload, hq] at h
          rw [← h]
          rfl
      | null =>
        simp [send_chat_query, faultyOnQ2Net, queryPayload] at h
        rw [← h]; rfl
      | bool b =>
        simp [send_chat_query, faultyOnQ2Net, queryPayload] at h
        rw [← h]; rfl
      | num n =>
        simp [send_chat_query, faultyOnQ2Net, queryPayload] at h
        rw [← h]; rfl
      | arr elems =>
        simp [send_chat_query, faultyOnQ2Net, queryPayload] at h
        rw [← h]; rfl
      | obj fields =>
        simp [send_chat_query, faultyOnQ2Net, queryPayload] at h
        rw [← h]; rfl)
    (by intro s hs; fin_cases hs <;> rfl)
    (by intro s hs; fin_cases hs <;> rfl)
    ([sRow1, sRow2, sRow3].map
      (fun s => (enrichScenario faultyOnQ2Net "http://localhost:5000" 1
        "2025-11-18T00:00:00" s).2))
    rfl

/-- C4: for a scenario row carrying the `scenario_type` key (so the
iteration completes rather than aborting the run) and whose
`send_chat_query` call succeeds (with the JSON-object payload §6
promises), the collector produces exactly the success row: its
`response` is the payload's `"response"` field, or the literal
`"No response"` sentinel when that field is absent; its `tool_calls` is
the empty sequence; and it carries an `error` key only if the input row
already did. -/
theorem collect_success_row_fields (net : Network) (api_base_url : String)
    (account_id : Int) (ts : String) (s : Dict) (qv tv : JValue)
    (fields : List (String × JValue))
    (hst : dictGet s "scenario_type" = some tv)
    (hs : dictGet s "query" = some qv)
    (hok : send_chat_query net api_base_url qv account_id none = .ok (.obj fields)) :
    processScenario net api_base_url account_id ts s =
      .ok ([qv], mkOkRow s (.obj fields)
        ((dictGet fields "response").getD (.str "No response")) ts) ∧
    dictGet (enrichScenario net api_base_url account_id ts s).2 "response" =
      some ((dictGet fields "response").getD (.str "No response")) ∧
    dictGet (enrichScenario net api_base_url account_id ts s).2 "tool_calls" =
      some (.arr []) ∧
    hasKey (enrichScenario net api_base_url account_id ts s).2 "error" =
      hasKey s "error" := by
  have h := enrichScenario_of_send_obj net api_base_url account_id ts s qv fields hs hok
  refine ⟨?_, ?_⟩
  · simp [processScenario, hst, h]
  · rw [h]
    exact ⟨dictGet_mkOkRow_response s (.obj fields) _ ts,
      dictGet_mkOkRow_toolCalls s (.obj fields) _ ts,
      hasKey_mkOkRow_error s (.obj fields) _ ts⟩

/-- Witness for C4: collecting a 3-scenario dataset against a mock
backend that answers `{"response": "All good"}` to every call yields
three rows, each with response `"All good"`, no `error` key and empty
`tool_calls`; the second conjunct instantiates the general law at the
first scenario. -/
theorem collect_success_row_fields_witness :
    ((collect_ai_responses allGoodNet "http://localhost:5000" 1 "2025-11-18T00:00:00"
        [sRow1, sRow2, sRow3]).2.map (fun rows => rows.map (fun r =>
          (dictGet r "response", hasKey r "error", dictGet r "tool_calls")))) =
      .ok [(some (.str "All good"), false, some (.arr [])),
           (some (.str "All good"), false, some (.arr [])),
           (some (.str "All good"), false, some (.arr []))] ∧
    dictGet (enrichScenario allGoodNet "http://localhost:5000" 1 "2025-11-18T00:00:00"
        sRow1).2 "response" = some (.str "All good") :=
  ⟨rfl,
   (collect_success_row_fields allGoodNet "http://localhost:5000" 1 "2025-11-18T00:00:00"
      sRow1 (.str "q1") (.str "portfolio_analysis") [("response", .str "All good")]
      rfl rfl rfl).2.1⟩

/-- C5 (amended): `send_chat_query` on a non-200 status fails with a
generic `Exception` whose message embeds the status code and the response
body text; on transport-level failure the underlying client exception
propagates with its cause; on a malformed 200 body the JSON decoding
exception propagates; on success the parsed JSON body is returned
verbatim.  Transport and serialization failures keep distinct classes,
but the non-200 failure is raised as the root `Exception` class, whose
handler catches every failure kind — so the caller can distinguish the
API-error case only by message text, not by class. -/
theorem send_chat_query_error_taxonomy (net : Network) (base_url : String)
    (qv : JValue) (account_id : Int) (thread_id : Option Int) :
    (∀ cause, net.post (queryUrl base_url) (queryPayload qv account_id thread_id) =
        .transportFail cause →
      send_chat_query net base_url qv account_id thread_id =
        .error (.clientError cause)) ∧
    (∀ status text bodyJson,
      net.post (queryUrl base_url) (queryPayload qv account_id thread_id) =
        .response status text bodyJson →
      status ≠ 200 →
      send_chat_query net base_url qv account_id thread_id =
        .error (.exception ("API Error " ++ toString status ++ ": " ++ text))) ∧
    (∀ text v, net.post (queryUrl base_url) (queryPayload qv account_id thread_id) =
        .response 200 text (.ok v) →
      send_chat_query net base_url qv account_id thread_id = .ok v) ∧
    (∀ text msg, net.post (queryUrl base_url) (queryPayload qv account_id thread_id) =
        .response 200 text (.error msg) →
      send_chat_query net base_url qv account_id thread_id =
        .error (.jsonDecodeError msg)) ∧
    (∀ cause msg, (PyExc.clientError cause).cls ≠ (PyExc.jsonDecodeError msg).cls) ∧
    (∀ msg e, catches (PyExc.exception msg).cls e = true) := by
  refine ⟨?_, ?_, ?_, ?_, ?_, ?_⟩
  · intro cause hc
    simp [send_chat_query, hc]
  · intro status text bodyJson hr hst
    simp [send_chat_query, hr, hst]
  · intro text v hr
    simp [send_chat_query, hr]
  · intro text msg hr
    simp [send_chat_query, hr]
  · intro cause msg
    simp [PyExc.cls]
  · intro msg e
    cases e <;> rfl

/-- Witness for C5: a backend answering 500 with body text
`Internal Server Error` makes `send_chat_query` fail with the generic
exception embedding both. -/
theorem send_chat_query_error_taxonomy_witness :
    send_chat_query erroringNet "http://localhost:5000" (.str "q1") 1 none =
      .error (.exception ("API Error " ++ toString 500 ++ ": " ++ "Internal Server Error")) :=
  (send_chat_query_error_taxonomy erroringNet "http://localhost:5000" (.str "q1") 1
      none).2.1 500 "Internal Server Error" (.error "no json") rfl (by decide)

/-- C5 counterexample: at concrete inputs, the non-200 failure and the
transport failure are both realised, yet no handler class catches the
API-error failure without also catching the transport failure — the
caller cannot distinguish an `ApiError` from a `TransportError` by class,
because the non-200 case is raised as the root `Exception` class rather
than a distinct one. -/
theorem send_error_classes_indistinct_counterexample :
    send_chat_query erroringNet "http://localhost:5000" (.str "q1") 1 none =
      .error (.exception "API Error 500: Internal Server Error") ∧
    send_chat_query refusingNet "http://localhost:5000" (.str "q1") 1 none =
      .error (.clientError "Connection refused") ∧
    ([ExcClass.exceptionCls, ExcClass.keyErrorCls, ExcClass.clientErrorCls,
      ExcClass.jsonDecodeCls, ExcClass.attributeCls].all (fun c =>
        !(catches c (.exception "API Error 500: Internal Server Error") &&
          !(catches c (.clientError "Connection refused"))))) = true :=
  ⟨rfl, rfl, rfl⟩

/-- C6: `health_check` GETs the fixed health endpoint and returns `true`
exactly when that request yields HTTP 200; a transport failure (including
a timeout, which aiohttp raises and the bare `except:` absorbs) or any
non-200 status yields `false`; and the result depends only on the health
endpoint's outcome.  The operation is a total `Bool`-valued function: it
never raises. -/
theorem health_check_only_200 (net : Network) (base_url : String) :
    (health_check net base_url = true ↔
      ∃ text bodyJson, net.get (healthUrl base_url) = .response 200 text bodyJson) ∧
    (∀ cause, net.get (healthUrl base_url) = .transportFail cause →
      health_check net base_url = false) ∧
    (∀ status text bodyJson,
      net.get (healthUrl base_url) = .response status text bodyJson →
      status ≠ 200 → health_check net base_url = false) ∧
    (∀ net2 : Network, net2.get (healthUrl base_url) = net.get (healthUrl base_url) →
      health_check net2 base_url = health_check net base_url) := by
  refine ⟨?_, ?_, ?_, ?_⟩
  · unfold health_check
    cases hg : net.get (healthUrl base_url) with
    | response status text bodyJson =>
      simp only [hg]
      constructor
      · intro h
        have hs : status = 200 := by simpa using h
        subst hs
        exact ⟨text, bodyJson, rfl⟩
      · rintro ⟨t2, b2, he⟩
        cases he
        simp
    | transportFail cause =>
      simp [hg]
  · intro cause hg
    simp [health_check, hg]
  · intro status text bodyJson hg hs
    simp [health_check, hg, hs]
  · intro net2 hsame
    simp [health_check, hsame]

/-- Witness for C6: a backend whose health endpoint answers 503 is
reported unhealthy. -/
theorem health_check_only_200_witness :
    health_check downNet "http://localhost:5000" = false :=
  (health_check_only_200 downNet "http://localhost:5000").2.2.1 503
    "Service Unavailable" (.error "no json") rfl (by decide)

/-- C7 (amended): for a scenario row carrying the `scenario_type` key
(so the iteration completes rather than aborting the run), the collected
row carries the raw payload under `api_response_full` exactly when its
own `send_chat_query` call succeeded with an object payload; the failure
branch assigns `response`, `tool_calls`, `error` and `timestamp` but
never `api_response_full`, so a failure row lacks that key (provided the
input row did not already carry it). -/
theorem api_response_full_iff_success (net : Network) (api_base_url : String)
    (account_id : Int) (ts : String) (s : Dict) (qv tv : JValue)
    (hst : dictGet s "scenario_type" = some tv)
    (hs : dictGet s "query" = some qv)
    (hnk : hasKey s "api_response_full" = false) :
    processScenario net api_base_url account_id ts s =
      .ok (enrichScenario net api_base_url account_id ts s) ∧
    (hasKey (enrichScenario net api_base_url account_id ts s).2 "api_response_full" = true
      ↔ ∃ fields, send_chat_query net api_base_url qv account_id none = .ok (.obj fields)) := by
  refine ⟨by simp [processScenario, hst], ?_⟩
  cases hsq : send_chat_query net api_base_url qv account_id none with
  | error e =>
    rw [enrichScenario_of_send_error net api_base_url account_id ts s qv e hs hsq]
    simp [hasKey_mkErrRow_api, hnk]
  | ok payload =>
    cases payload with
    | obj fields =>
      rw [enrichScenario_of_send_obj net api_base_url account_id ts s qv fields hs hsq]
      simp [hasKey_mkOkRow_api]
    | null => simp [enrichScenario, hs, hsq, pyObjGet, hasKey_mkErrRow_api, hnk]
    | bool b => simp [enrichScenario, hs, hsq, pyObjGet, hasKey_mkErrRow_api, hnk]
    | num n => simp [enrichScenario, hs, hsq, pyObjGet, hasKey_mkErrRow_api, hnk]
    | str s2 => simp [enrichScenario, hs, hsq, pyObjGet, hasKey_mkErrRow_api, hnk]
    | arr elems => simp [enrichScenario, hs, hsq, pyObjGet, hasKey_mkErrRow_api, hnk]

/-- Witness for C7: against a backend that refuses every query, the
iteration completes and the enriched row produced for a scenario lacks
the `api_response_full` key. -/
theorem api_response_full_iff_success_witness :
    hasKey (enrichScenario refusingNet "http://localhost:5000" 1 "2025-11-18T00:00:00"
      sRow1).2 "api_response_full" = false := by
  have h := (api_response_full_iff_success refusingNet "http://localhost:5000" 1
    "2025-11-18T00:00:00" sRow1 (.str "q1") (.str "portfolio_analysis") rfl rfl rfl).2
  rw [show send_chat_query refusingNet "http://localhost:5000" (.str "q1") 1 none =
    .error (.clientError "Connection refused") from rfl] at h
  simp at h
  exact h

/-- C7 counterexample: a collection run in which the single scenario's
call fails produces one enriched row, and that row does not carry the
`api_response_full` key — refuting the claim that every record, success
or failure, carries the raw API payload. -/
theorem api_response_full_missing_counterexample :
    ((collect_ai_responses refusingNet "http://localhost:5000" 1 "2025-11-18T00:00:00"
        [sRow1]).2.map (fun rows => rows.map (fun r =>
          (hasKey r "api_response_full", hasKey r "error")))) =
      .ok [(false, true)] :=
  rfl

/-- C8 (amended): the built dataset has one row per scenario, in catalog
order; each row flattens exactly the keys `query`, `tool_definitions`
(the full set duplicated per line), `scenario_id`, `scenario_type`,
`expected_tool`, `expected_params`, plus — exactly when the scenario has
a note — a `"notes"` key (not `"note"`) holding that note. -/
theorem create_test_dataset_row_shape :
    create_test_dataset.map (fun r => dictGet r "query") =
      test_scenarios.map (fun s => some (.str s.query)) ∧
    create_test_dataset.map (fun r => dictGet r "tool_definitions") =
      test_scenarios.map (fun _ => some (.arr tool_definitions)) ∧
    create_test_dataset.map (fun r => dictGet r "scenario_id") =
      (List.range test_scenarios.length).map (fun i => some (.str (scenarioId i))) ∧
    create_test_dataset.map (fun r => dictGet r "scenario_type") =
      test_scenarios.map (fun s => some (.str s.scenario_type)) ∧
    create_test_dataset.map (fun r => dictGet r "expected_tool") =
      test_scenarios.map (fun s => some (.str s.expected_tool)) ∧
    create_test_dataset.map (fun r => dictGet r "expected_params") =
      test_scenarios.map (fun s => some (.obj s.expected_params)) ∧
    create_test_dataset.map (fun r => dictGet r "notes") =
      test_scenarios.map (fun s => s.note.map JValue.str) ∧
    create_test_dataset.map (fun r => hasKey r "notes") =
      test_scenarios.map (fun s => s.note.isSome) ∧
    create_test_dataset.map (fun r => hasKey r "note") =
      test_scenarios.map (fun _ => false) ∧
    create_test_dataset.map (fun r => r.map Prod.fst) =
      test_scenarios.map (fun s =>
        ["query", "tool_definitions", "scenario_id", "scenario_type",
         "expected_tool", "expected_params"] ++
        (match s.note with | some _ => ["notes"] | none => [])) :=
  ⟨rfl, rfl, rfl, rfl, rfl, rfl, rfl, rfl, rfl, rfl⟩

/-- C8 counterexample: the two scenarios that carry a note (the tenth and
eleventh) produce rows with a `"notes"` key and no row of the dataset
carries a `"note"` key — refuting the claim that serialization writes a
`note` field exactly when the scenario has a note. -/
theorem dataset_note_key_counterexample :
    test_scenarios.map (fun s => s.note.isSome) =
      [false, false, false, false, false, false, false, false, false, true, true] ∧
    create_test_dataset.map (fun r => hasKey r "note") =
      [false, false, false, false, false, false, false, false, false, false, false] ∧
    create_test_dataset.map (fun r => hasKey r "notes") =
      [false, false, false, false, false, false, false, false, false, true, true] :=
  ⟨rfl, rfl, rfl⟩

/-- C9: every scenario of the built catalog names an expected tool that is
declared among the dataset's tool definitions. -/
theorem expected_tool_declared (s : Scenario) (hmem : s ∈ test_scenarios) :
    s.expected_tool ∈ toolDefNames := by
  fin_cases hmem <;> decide

/-- Witness for C9: the first catalog scenario's expected tool is
declared. -/
theorem expected_tool_declared_witness :
    (test_scenarios.get ⟨0, by decide⟩).expected_tool ∈ toolDefNames :=
  expected_tool_declared _ (List.get_mem _ _ _)

/-- C10: the scenario ids of the built dataset are the zero-padded
sequential identifiers `test_01` … `test_11`, in file order, pairwise
distinct and strictly increasing. -/
theorem dataset_ids_sequential :
    datasetIds = (List.range test_scenarios.length).map scenarioId ∧
    datasetIds = ["test_01", "test_02", "test_03", "test_04", "test_05", "test_06",
      "test_07", "test_08", "test_09", "test_10", "test_11"] ∧
    List.Chain' (fun a b => a < b) datasetIds ∧
    datasetIds.Nodup := by
  have hd : datasetIds = ["test_01", "test_02", "test_03", "test_04", "test_05",
      "test_06", "test_07", "test_08", "test_09", "test_10", "test_11"] := rfl
  refine ⟨rfl, hd, ?_, ?_⟩
  · rw [hd]
    simp only [List.chain'_cons, List.chain'_singleton, String.lt_iff_toList_lt, and_true]
    decide
  · rw [hd]
    decide

end PortfolioEval
